import Mathlib

set_option linter.unusedVariables false

/-!
Verification of the broker-bridge script `meshtastic-mqtt-forwarder.py`.

The script keeps two MQTT client sessions (a local "source" and a remote
"sink"), forwards every message received on the local subscription to the
remote broker under a rewritten topic, counts consecutive publish failures,
and runs a shared reconnect routine with exponential backoff.

The shallow embedding below translates the script's mutable globals
(`failure_count`, `reconnect_delay`) together with the two clients'
connectivity flags into an explicit state record, and the callbacks
`on_local_message`, `on_connect` and the routine `reconnect_brokers` into
pure state-passing functions.  The outcomes of the fallible network calls
(the two `reconnect()` calls, the publish return code) are inputs supplied
by the environment.  Python exceptions are modelled with `Except`: a
function that can propagate an uncaught exception returns `Except Unit _`,
and a `try`/`except` block is a `match` on the outcome of its body.
-/

/-- Identity of a client: the local (source, subscribing) client or the
remote (sink, publishing) client.  The script builds the two
`mqtt.Client` objects at lines 126 and 133 and wires the same callback
functions into both. -/
inductive Role where
  | source : Role
  | sink : Role
deriving DecidableEq, Repr

/-- The script's constant `failure_threshold = 5` (line 59). -/
def failure_threshold : Nat := 5

/-- The script's constant `REMOTE_TOPIC_PREFIX = "egr/home/2/e/LongFast/"`
(line 51). -/
def REMOTE_TOPIC_PFX : String := "egr/home/2/e/LongFast/"

/-- The literal subscription topic head hard-coded at line 69 of
`on_local_message` (the subscription pattern `LOCAL_TOPIC` minus its
trailing `#` wildcard). -/
def LOCAL_TOPIC_HEAD : String := "msh/US/2/e/LongFast/"

/-- Lines 69 and 70 of `on_local_message`: the topic rewrite.
`local_topic_suffix = message.topic[len("msh/US/2/e/LongFast/"):]` and
`remote_topic = REMOTE_TOPIC_PREFIX + local_topic_suffix`.  Python's
slice `t[n:]` drops the first `n` characters unconditionally (and yields
a short or empty string when `t` is shorter), which is `String.drop`. -/
def rewrite_topic (topic : String) : String :=
  REMOTE_TOPIC_PFX ++ topic.drop (String.length LOCAL_TOPIC_HEAD)

/-- Python's `t.startswith(p)`, character-wise: whether the topic `t`
starts with the string `p`. -/
def topic_starts_with (p t : String) : Bool :=
  List.isPrefixOf p.data t.data

/-- The script's mutable state: the two clients' `is_connected()` flags
and the two module-level globals `failure_count` (line 58) and
`reconnect_delay` (line 60). -/
structure SysState where
  localConnected : Bool
  remoteConnected : Bool
  failure_count : Nat
  reconnect_delay : Nat
deriving DecidableEq, Repr

/-- Environment for one call of `reconnect_brokers`: whether
`local_client.reconnect()` and `remote_client.reconnect()` raise.  These
are the only statements inside the routine's `try` block that can raise. -/
structure RecEnv where
  localRaises : Bool
  remoteRaises : Bool
deriving DecidableEq, Repr

/-- Result of one call of `reconnect_brokers`: the state afterwards and
how many times each client's `reconnect()` was invoked during the call. -/
structure RecResult where
  state : SysState
  localCalls : Nat
  remoteCalls : Nat
deriving DecidableEq, Repr

/-- Lines 108-120, `reconnect_brokers`.  Guard: only act when
`not local_client.is_connected() or not remote_client.is_connected()`.
Inside the guard, a `try` block calls `local_client.reconnect()` then
`remote_client.reconnect()`; if both return, `reconnect_delay` is reset
to 5 and `failure_count` to 0; if either raises, the `except` branch
doubles `reconnect_delay` capped at 60 and logs.  If the local call
raises, the remote call is never reached.  Every statement that can
raise sits inside the `try`, so the routine itself always returns
normally: every branch of the embedding is `Except.ok`.  The clients'
connectivity flags are owned by the transport layer and updated
asynchronously, so the embedding leaves them unchanged here. -/
def reconnect_brokers (s : SysState) (env : RecEnv) : Except Unit RecResult :=
  if !s.localConnected || !s.remoteConnected then
    if env.localRaises then
      .ok ⟨{ s with reconnect_delay := min (s.reconnect_delay * 2) 60 }, 1, 0⟩
    else if env.remoteRaises then
      .ok ⟨{ s with reconnect_delay := min (s.reconnect_delay * 2) 60 }, 1, 1⟩
    else
      .ok ⟨{ s with reconnect_delay := 5, failure_count := 0 }, 1, 1⟩
  else
    .ok ⟨s, 0, 0⟩

/-- Lines 66-88, `on_local_message`, state effects of handling one
inbound message.  `pubOk` is whether the publish to the remote broker
succeeded (`result.rc == mqtt.MQTT_ERR_SUCCESS`); a publish call that
itself raises lands in the same `except` branch as a bad return code,
so one boolean captures both.  On success `failure_count` is reset to 0;
on failure it is incremented and, once it reaches `failure_threshold`,
`reconnect_brokers` is called.  The returned boolean records whether
this message handling invoked `reconnect_brokers`.  A raise from
`reconnect_brokers` would occur inside the `except` handler and so
propagate to the caller, hence the `Except` plumbing. -/
def on_local_message (s : SysState) (pubOk : Bool) (env : RecEnv) :
    Except Unit (SysState × Bool) :=
  if pubOk then
    .ok ({ s with failure_count := 0 }, false)
  else
    let s1 : SysState := { s with failure_count := s.failure_count + 1 }
    if failure_threshold ≤ s1.failure_count then
      match reconnect_brokers s1 env with
      | .ok r => .ok (r.state, true)
      | .error e => .error e
    else
      .ok (s1, false)

/-- Lines 92-97, `on_connect`: the shared connection callback.  On a
success result code (`rc == 0`) it calls `client.subscribe(LOCAL_TOPIC)`
on whichever client the callback fired for; the body never inspects
which client that is.  The script installs this one function as the
`on_connect` handler of both the local client (line 129) and the remote
client (line 135).  The returned boolean is whether the given client
issues the subscription. -/
def on_connect (client : Role) (rc : Nat) : Bool :=
  rc == 0

/-- Folds `on_local_message` over a list of inbound messages, each given
by its publish outcome and the reconnect environment in effect if a
reconnect is triggered while handling it.  Returns the final state and
how many of the messages triggered a `reconnect_brokers` call. -/
def process_messages : SysState → List (Bool × RecEnv) → Except Unit (SysState × Nat)
  | s, [] => .ok (s, 0)
  | s, (pubOk, env) :: rest =>
    match on_local_message s pubOk env with
    | .ok (s', trig) =>
      match process_messages s' rest with
      | .ok (s'', n) => .ok (s'', (if trig then 1 else 0) + n)
      | .error e => .error e
    | .error e => .error e

/-- An environment in which the first `reconnect()` call raises: the
recovery attempt fails. -/
def failEnv : RecEnv := ⟨true, true⟩

/-- An environment in which both `reconnect()` calls return: the
recovery attempt succeeds. -/
def succEnv : RecEnv := ⟨false, false⟩

/-- `N` successive calls of `reconnect_brokers` under `failEnv`,
i.e. `N` consecutive failed recovery attempts with no intervening
success. -/
def iterate_failed_recovery : Nat → SysState → SysState
  | 0, s => s
  | n + 1, s =>
    let s' := iterate_failed_recovery n s
    match reconnect_brokers s' failEnv with
    | .ok r => r.state
    | .error _ => s'

/-- Claim C1: the claim states that on a success result code only the
source (local) connection subscribes and the sink (remote) connection
never subscribes.  The code wires the one shared `on_connect` callback
into both clients, and the callback subscribes whichever client it fired
for whenever `rc == 0` — so the sink client does issue the subscription,
contradicting the claim and the script's own header comment (which says
the local broker is subscribed and the remote broker only receives
republished messages).  This theorem evaluates the callback at the
failing input: the sink client with result code 0. -/
theorem sink_subscribes_at_success_code : on_connect Role.sink 0 = true := rfl

/-- Claim C2 counterexample: for the inbound topic `"unexpected"`,
which does not start with the subscription head, the rewrite does not
produce `Q + T` as the claim states: line 69 slices off the first
`len(P)` characters unconditionally, so the whole topic is swallowed
and the output is just `Q`. -/
theorem rewrite_nonmatching_cx :
    topic_starts_with LOCAL_TOPIC_HEAD "unexpected" = false ∧
    rewrite_topic "unexpected" = REMOTE_TOPIC_PFX ∧
    rewrite_topic "unexpected" ≠ REMOTE_TOPIC_PFX ++ "unexpected" :=
  ⟨by decide, by decide, by decide⟩

/-- Claim C2 amended: for an inbound topic `T` that does not start with
the subscription head `P`, the rewrite still unconditionally drops the
first `len(P)` characters and produces `Q + T[len(P):]` (not `Q + T`);
no anomaly is logged and no error is raised — the slice is total. -/
theorem rewrite_nonmatching_total (t : String)
    (h : topic_starts_with LOCAL_TOPIC_HEAD t = false) :
    rewrite_topic t = REMOTE_TOPIC_PFX ++ t.drop (String.length LOCAL_TOPIC_HEAD) :=
  rfl

/-- Witness for `rewrite_nonmatching_total` at the topic `"unexpected"`. -/
theorem rewrite_nonmatching_total_witness :
    topic_starts_with LOCAL_TOPIC_HEAD "unexpected" = false ∧
    rewrite_topic "unexpected" =
      REMOTE_TOPIC_PFX ++ "unexpected".drop (String.length LOCAL_TOPIC_HEAD) :=
  ⟨by decide, rewrite_nonmatching_total "unexpected" (by decide)⟩

/-- Claim C7: for every inbound topic that starts with the subscription
head, the rewritten topic is the configured outbound head followed by
the part of the topic after the subscription head; in particular
`"msh/US/2/e/LongFast/!abc123"` rewrites to
`"egr/home/2/e/LongFast/!abc123"`. -/
theorem rewrite_matching :
    (∀ t : String, topic_starts_with LOCAL_TOPIC_HEAD t = true →
      rewrite_topic t = REMOTE_TOPIC_PFX ++ t.drop (String.length LOCAL_TOPIC_HEAD)) ∧
    rewrite_topic "msh/US/2/e/LongFast/!abc123" = "egr/home/2/e/LongFast/!abc123" :=
  ⟨fun _ _ => rfl, by decide⟩

/-- Witness for `rewrite_matching` at the claim's concrete topic. -/
theorem rewrite_matching_witness :
    topic_starts_with LOCAL_TOPIC_HEAD "msh/US/2/e/LongFast/!abc123" = true ∧
    rewrite_topic "msh/US/2/e/LongFast/!abc123" =
      REMOTE_TOPIC_PFX ++ "msh/US/2/e/LongFast/!abc123".drop (String.length LOCAL_TOPIC_HEAD) :=
  ⟨by decide, rewrite_matching.1 "msh/US/2/e/LongFast/!abc123" (by decide)⟩

/-- Claim C3 counterexample: the code keeps no last-recovery-attempt
timestamp and has no cooldown gate.  Starting disconnected with
`reconnect_delay = 5`, a first trigger runs a reconnect sequence
(`localCalls = 1`) which fails and doubles the delay to 10; a second
trigger fired immediately afterwards (0 seconds elapsed, well inside any
positive backoff window) runs a second full reconnect sequence
(`localCalls = 1` again) instead of being a no-op. -/
theorem cooldown_gate_cx :
    reconnect_brokers ⟨false, false, 5, 5⟩ failEnv = .ok ⟨⟨false, false, 5, 10⟩, 1, 0⟩ ∧
    reconnect_brokers ⟨false, false, 5, 10⟩ failEnv = .ok ⟨⟨false, false, 5, 20⟩, 1, 0⟩ :=
  ⟨rfl, rfl⟩

/-- Claim C3 amended: `reconnect_brokers` has no cooldown gate: whenever
either client is not connected it runs a reconnect sequence, regardless
of how recently the previous attempt ran.  (The only time spacing in the
script is the `time.sleep(reconnect_delay)` in `on_disconnect` before it
calls `reconnect_brokers`, which does not limit other triggers.) -/
theorem recovery_attempts_whenever_disconnected (s : SysState) (env : RecEnv)
    (h : s.localConnected = false ∨ s.remoteConnected = false) :
    ∃ r : RecResult, reconnect_brokers s env = .ok r ∧ r.localCalls = 1 := by
  have hg : (!s.localConnected || !s.remoteConnected) = true := by
    rcases h with h | h <;> simp [h]
  obtain ⟨le, re⟩ := env
  cases le <;> cases re
  · exact ⟨⟨{ s with reconnect_delay := 5, failure_count := 0 }, 1, 1⟩,
      by simp [reconnect_brokers, hg], rfl⟩
  · exact ⟨⟨{ s with reconnect_delay := min (s.reconnect_delay * 2) 60 }, 1, 1⟩,
      by simp [reconnect_brokers, hg], rfl⟩
  · exact ⟨⟨{ s with reconnect_delay := min (s.reconnect_delay * 2) 60 }, 1, 0⟩,
      by simp [reconnect_brokers, hg], rfl⟩
  · exact ⟨⟨{ s with reconnect_delay := min (s.reconnect_delay * 2) 60 }, 1, 0⟩,
      by simp [reconnect_brokers, hg], rfl⟩

/-- Witness for `recovery_attempts_whenever_disconnected` with the local
client disconnected. -/
theorem recovery_attempts_whenever_disconnected_witness :
    ((⟨false, true, 0, 5⟩ : SysState).localConnected = false ∨
      (⟨false, true, 0, 5⟩ : SysState).remoteConnected = false) ∧
    ∃ r : RecResult, reconnect_brokers ⟨false, true, 0, 5⟩ succEnv = .ok r ∧
      r.localCalls = 1 :=
  ⟨Or.inl rfl, recovery_attempts_whenever_disconnected _ succEnv (Or.inl rfl)⟩

/-- Claim C8: if both clients report connected, `reconnect_brokers` is a
no-op: neither client's `reconnect()` is invoked and the state (failure
count, backoff delay, flags) is returned unchanged. -/
theorem recovery_noop_when_both_connected (s : SysState) (env : RecEnv)
    (hl : s.localConnected = true) (hr : s.remoteConnected = true) :
    reconnect_brokers s env = .ok ⟨s, 0, 0⟩ := by
  simp [reconnect_brokers, hl, hr]

/-- Witness for `recovery_noop_when_both_connected` at a concrete
connected state. -/
theorem recovery_noop_when_both_connected_witness :
    (⟨true, true, 7, 20⟩ : SysState).localConnected = true ∧
    (⟨true, true, 7, 20⟩ : SysState).remoteConnected = true ∧
    reconnect_brokers ⟨true, true, 7, 20⟩ failEnv = .ok ⟨⟨true, true, 7, 20⟩, 0, 0⟩ :=
  ⟨rfl, rfl, recovery_noop_when_both_connected ⟨true, true, 7, 20⟩ failEnv rfl rfl⟩

/-- Claim C9: a recovery attempt never raises to its caller.  For every
state and every outcome of the two `reconnect()` calls (including either
raising a transport error), `reconnect_brokers` returns normally
(`Except.ok`), and it calls each client's `reconnect()` at most once —
it never retries within the same call. -/
theorem recovery_never_raises (s : SysState) (env : RecEnv) :
    ∃ r : RecResult, reconnect_brokers s env = .ok r ∧
      r.localCalls ≤ 1 ∧ r.remoteCalls ≤ 1 := by
  obtain ⟨le, re⟩ := env
  by_cases hg : (!s.localConnected || !s.remoteConnected) = true
  · cases le <;> cases re
    · exact ⟨⟨{ s with reconnect_delay := 5, failure_count := 0 }, 1, 1⟩,
        by simp [reconnect_brokers, hg], by simp, by simp⟩
    · exact ⟨⟨{ s with reconnect_delay := min (s.reconnect_delay * 2) 60 }, 1, 1⟩,
        by simp [reconnect_brokers, hg], by simp, by simp⟩
    · exact ⟨⟨{ s with reconnect_delay := min (s.reconnect_delay * 2) 60 }, 1, 0⟩,
        by simp [reconnect_brokers, hg], by simp, by simp⟩
    · exact ⟨⟨{ s with reconnect_delay := min (s.reconnect_delay * 2) 60 }, 1, 0⟩,
        by simp [reconnect_brokers, hg], by simp, by simp⟩
  · rw [Bool.not_eq_true] at hg
    exact ⟨⟨s, 0, 0⟩, by simp [reconnect_brokers, hg], by simp, by simp⟩

/-- Unfolding of `on_local_message` on a failed publish: the failure
count is incremented and the threshold test decides whether
`reconnect_brokers` runs. -/
lemma on_local_message_false_eq (s : SysState) (env : RecEnv) :
    on_local_message s false env =
      (if failure_threshold ≤ s.failure_count + 1 then
        match reconnect_brokers { s with failure_count := s.failure_count + 1 } env with
        | .ok r => .ok (r.state, true)
        | .error e => .error e
      else .ok ({ s with failure_count := s.failure_count + 1 }, false)) := rfl

/-- Once the failure count sits at or above the threshold, handling one
more failed publish always invokes `reconnect_brokers`. -/
lemma on_local_message_triggers (s : SysState) (env : RecEnv)
    (hth : failure_threshold ≤ s.failure_count) :
    ∃ s2 : SysState, on_local_message s false env = .ok (s2, true) := by
  obtain ⟨lc, rc, n, d⟩ := s
  obtain ⟨le, re⟩ := env
  have hn : failure_threshold ≤ n + 1 := Nat.le_succ_of_le hth
  rw [on_local_message_false_eq]
  rw [if_pos hn]
  cases lc <;> cases rc <;> cases le <;> cases re <;> exact ⟨_, rfl⟩

/-- Claim C4: starting from a zero failure count, five consecutive
failed publishes invoke `reconnect_brokers` exactly once (on the fifth
failure), whatever the connectivity flags, the initial delay and the
reconnect outcomes; and a successful publish between failures resets
the count, so a sequence of 4 failures, 1 success, 4 failures never
invokes it. -/
theorem five_failures_trigger_once (lc rc : Bool) (d : Nat) (e : RecEnv) :
    (∃ s1 : SysState, process_messages ⟨lc, rc, 0, d⟩
        [(false, e), (false, e), (false, e), (false, e), (false, e)] =
          .ok (s1, 1)) ∧
    (∃ s2 : SysState, process_messages ⟨lc, rc, 0, d⟩
        [(false, e), (false, e), (false, e), (false, e), (true, e),
         (false, e), (false, e), (false, e), (false, e)] =
          .ok (s2, 0)) := by
  obtain ⟨le, re⟩ := e
  cases lc <;> cases rc <;> cases le <;> cases re <;>
    exact ⟨⟨_, rfl⟩, ⟨_, rfl⟩⟩

/-- Failed recovery attempts keep the connectivity flags and the
failure count, and only update the delay; closed form after starting
from delay 5 with the local client down. -/
lemma iterate_failed_recovery_delay (N : Nat) (rc : Bool) (n : Nat) :
    iterate_failed_recovery N ⟨false, rc, n, 5⟩ =
      ⟨false, rc, n, min (5 * 2 ^ N) 60⟩ := by
  induction N with
  | zero =>
    show (⟨false, rc, n, 5⟩ : SysState) = _
    norm_num
  | succ k ih =>
    show (match reconnect_brokers (iterate_failed_recovery k ⟨false, rc, n, 5⟩) failEnv with
          | .ok r => r.state
          | .error _ => iterate_failed_recovery k ⟨false, rc, n, 5⟩) = _
    rw [ih]
    show (⟨false, rc, n, min (min (5 * 2 ^ k) 60 * 2) 60⟩ : SysState) = _
    have h2 : (5 : Nat) * 2 ^ (k + 1) = 5 * 2 ^ k * 2 := by ring
    rw [h2]
    congr 1
    omega

/-- Claim C5: after `N` consecutive failed recovery attempts with no
intervening success, starting from the reset delay of 5, the backoff
delay equals `min (5 * 2 ^ N) 60`; and one successful recovery attempt
resets the delay to 5 (and the failure count to 0). -/
theorem backoff_doubles_capped_and_resets (N : Nat) (rc : Bool) (n : Nat) :
    (iterate_failed_recovery N ⟨false, rc, n, 5⟩).reconnect_delay =
      min (5 * 2 ^ N) 60 ∧
    ∃ r : RecResult,
      reconnect_brokers (iterate_failed_recovery N ⟨false, rc, n, 5⟩) succEnv =
        .ok r ∧ r.state.reconnect_delay = 5 ∧ r.state.failure_count = 0 := by
  rw [iterate_failed_recovery_delay]
  exact ⟨rfl, ⟨⟨false, rc, 0, 5⟩, 1, 1⟩, rfl, rfl, rfl⟩

/-- Claim C6: the failure count is reset to 0 exactly when a publish
succeeds or a recovery attempt succeeds, and in no other case: after
`reconnect_brokers` the count is 0 precisely when a reconnect sequence
ran (some client down) and both reconnect calls returned, and otherwise
unchanged; after a successful publish the count is 0; after a failed
publish the count is 0 precisely when the threshold was reached and the
triggered recovery attempt ran and succeeded (otherwise the count was
just incremented, which is never 0). -/
theorem failure_count_reset_iff (s : SysState) (env : RecEnv) :
    (∀ r : RecResult, reconnect_brokers s env = .ok r →
        r.state.failure_count =
          if (s.localConnected = false ∨ s.remoteConnected = false) ∧
              env.localRaises = false ∧ env.remoteRaises = false then 0
          else s.failure_count) ∧
    (∀ p : SysState × Bool, on_local_message s true env = .ok p →
        p.1.failure_count = 0) ∧
    (∀ p : SysState × Bool, on_local_message s false env = .ok p →
        (p.1.failure_count = 0 ↔
          failure_threshold ≤ s.failure_count + 1 ∧
          (s.localConnected = false ∨ s.remoteConnected = false) ∧
          env.localRaises = false ∧ env.remoteRaises = false)) := by
  obtain ⟨lc, rc, n, d⟩ := s
  obtain ⟨le, re⟩ := env
  refine ⟨?_, ?_, ?_⟩
  · intro r hr
    cases lc <;> cases rc <;> cases le <;> cases re <;>
      (injection hr with h; subst h; simp)
  · intro p hp
    injection hp with h
    subst h
    rfl
  · intro p hp
    rw [on_local_message_false_eq] at hp
    by_cases hn : failure_threshold ≤ n + 1
    · rw [if_pos hn] at hp
      cases lc <;> cases rc <;> cases le <;> cases re <;>
        (injection hp with h; subst h; simp [hn])
    · rw [if_neg hn] at hp
      injection hp with h
      subst h
      simp [hn]

/-- Witness for `failure_count_reset_iff`: a successful recovery attempt
from a concrete state with 3 accumulated failures resets the count. -/
theorem failure_count_reset_iff_witness :
    ∃ r : RecResult, reconnect_brokers ⟨false, true, 3, 5⟩ succEnv = .ok r ∧
      r.state.failure_count = 0 := by
  have h := (failure_count_reset_iff ⟨false, true, 3, 5⟩ succEnv).1
    ⟨⟨false, true, 0, 5⟩, 1, 1⟩ rfl
  exact ⟨⟨⟨false, true, 0, 5⟩, 1, 1⟩, rfl,
    h.trans (if_pos ⟨Or.inl rfl, rfl, rfl⟩)⟩

/-- Claim C10: when a triggered recovery attempt fails (some client is
down and a reconnect call raises), the attempt leaves the failure count
and the connectivity flags unchanged and only doubles the capped delay;
consequently, when the count already sits at or above the threshold,
every subsequent failed publish immediately invokes `reconnect_brokers`
again. -/
theorem failed_recovery_keeps_count (s : SysState) (env : RecEnv) (r : RecResult)
    (hguard : s.localConnected = false ∨ s.remoteConnected = false)
    (hfail : env.localRaises = true ∨ env.remoteRaises = true)
    (hr : reconnect_brokers s env = .ok r) :
    r.state.failure_count = s.failure_count ∧
    r.state.localConnected = s.localConnected ∧
    r.state.remoteConnected = s.remoteConnected ∧
    r.state.reconnect_delay = min (s.reconnect_delay * 2) 60 ∧
    (failure_threshold ≤ s.failure_count → ∀ env2 : RecEnv,
      ∃ s2 : SysState, on_local_message r.state false env2 = .ok (s2, true)) := by
  obtain ⟨lc, rc, n, d⟩ := s
  obtain ⟨le, re⟩ := env
  cases lc <;> cases rc <;> cases le <;> cases re <;>
    simp_all
  all_goals
    (injection hr with h; subst h;
     exact ⟨rfl, rfl, rfl, rfl, fun hth env2 =>
       on_local_message_triggers _ env2 hth⟩)

/-- Witness for `failed_recovery_keeps_count`: from a disconnected state
with the count at the threshold of 5, a failed recovery attempt doubles
the delay to 10 but leaves the count at 5, and the next failed publish
invokes `reconnect_brokers` again. -/
theorem failed_recovery_keeps_count_witness :
    reconnect_brokers ⟨false, true, 5, 5⟩ failEnv =
      .ok ⟨⟨false, true, 5, 10⟩, 1, 0⟩ ∧
    (RecResult.mk ⟨false, true, 5, 10⟩ 1 0).state.failure_count = 5 ∧
    ∃ s2 : SysState,
      on_local_message (⟨false, true, 5, 10⟩ : SysState) false failEnv =
        .ok (s2, true) := by
  have h := failed_recovery_keeps_count ⟨false, true, 5, 5⟩ failEnv
    ⟨⟨false, true, 5, 10⟩, 1, 0⟩ (Or.inl rfl) (Or.inl rfl) rfl
  exact ⟨rfl, h.1, h.2.2.2.2 (by decide) failEnv⟩
